import Mathlib

/-!
Verification development for the VoaProtect voice-triage demo
(`src/voaprotect_demo.py`).

The definitions below are a shallow embedding of the program's core logic:
the per-language symptom vocabularies (`SYMPTOMS`, lines 79-88), the
case-insensitive substring matcher (line 184), the triage step function
(line 186), the random outbreak placeholder (line 187), the transcript
accumulation including the final-flush handling (lines 172-180), the start
button handler (lines 98-102) and the per-script-run orchestration guard
(lines 191-192).  Effectful inputs (model-folder presence, the texts the
recognizer returns, the random draw) are passed in explicitly.
-/

namespace VoaProtect

/-- The two supported interface languages (sidebar selectbox, line 96). -/
inductive Language where
  | English
  | French
  deriving DecidableEq

/-- Risk classification levels; the source represents them as the localized
label strings of the `INSTRUCTIONS` table. -/
inductive RiskLevel where
  | Low
  | Moderate
  | High
  deriving DecidableEq

/-- The per-language symptom vocabularies (`SYMPTOMS` dict, lines 79-88),
in source order. -/
def SYMPTOMS : Language → List String
  | .English =>
      ["fever", "chills", "headache", "vomiting", "fatigue", "nausea",
       "muscle pain", "diarrhea", "sore throat", "eye pain", "dizziness", "confusion"]
  | .French =>
      ["fièvre", "frissons", "mal de tête", "vomissements", "fatigue", "nausée",
       "douleurs musculaires", "diarrhée", "maux de gorge", "douleur oculaire",
       "vertiges", "confusion"]

/-- Lowercasing of a single character as performed by Python's `str.lower`,
restricted to the Basic Latin and Latin-1 Supplement letters, which cover
every character reachable in this application's vocabularies and locale
tables. -/
def pyLowerChar (c : Char) : Char :=
  if 65 ≤ c.toNat ∧ c.toNat ≤ 90 then Char.ofNat (c.toNat + 32)
  else if 192 ≤ c.toNat ∧ c.toNat ≤ 222 ∧ c.toNat ≠ 215 then Char.ofNat (c.toNat + 32)
  else c

/-- Python's `str.lower`, character by character (line 184 lowers both the
transcript and each vocabulary term). -/
def pyLower (s : String) : String := ⟨s.data.map pyLowerChar⟩

/-- Does `needle` occur at the very start of `hay`? (Helper for the
substring test.) -/
def leadsWith : List Char → List Char → Bool
  | _, [] => true
  | [], _ :: _ => false
  | h :: hs, n :: ns => decide (h = n) && leadsWith hs ns

/-- Contiguous-substring containment of `needle` in the second argument,
scanning left to right; this is Python's `needle in hay` on strings. -/
def containsSub (needle : List Char) : List Char → Bool
  | [] => decide (needle = [])
  | c :: rest => leadsWith (c :: rest) needle || containsSub needle rest

/-- Python's `needle in hay` membership test on strings (line 184). -/
def strInStr (needle hay : String) : Bool := containsSub needle.data hay.data

/-- Python's `' '.join(results)` (line 183): segment texts concatenated in
sequence order, space-joined. -/
def joinSegments : List String → String
  | [] => ""
  | [s] => s
  | s :: rest => s ++ " " ++ joinSegments rest

/-- The symptom matcher (line 184):
`[s for s in SYMPTOMS[language] if s.lower() in full.lower()]`. -/
def matchSymptoms (vocab : List String) (full : String) : List String :=
  vocab.filter (fun s => strInStr (pyLower s) (pyLower full))

/-- The triage step function (line 186):
`high if cnt >= 6 else moderate if cnt >= 3 else low`. -/
def triage (cnt : Nat) : RiskLevel :=
  if 6 ≤ cnt then .High else if 3 ≤ cnt then .Moderate else .Low

/-- The list the outbreak placeholder draws from (line 187):
`random.choice([low, moderate, high])`. -/
def OUTBREAK_LEVELS : List RiskLevel := [.Low, .Moderate, .High]

/-- The outbreak placeholder (line 187), with the uniform random draw made
an explicit index into the three-element choice list. -/
def outbreak (draw : Fin 3) : RiskLevel :=
  OUTBREAK_LEVELS.get ⟨draw.val, by simp [OUTBREAK_LEVELS]⟩

/-- The mutable Streamlit session state touched by the core
(initialized at lines 129-138). -/
structure SessionState where
  start : Bool
  done : Bool
  results : List String
  matched : List String
  triage : Option RiskLevel
  outbreak : Option RiskLevel
  deriving DecidableEq

/-- The session-state defaults installed on first run (lines 129-138). -/
def initialState : SessionState :=
  { start := false
    done := false
    results := []
    matched := []
    triage := none
    outbreak := none }

/-- The start-button handler (lines 98-102): unconditionally sets the
`start` flag, clears the `done` flag and resets `results` and `matched`. -/
def btn_start (s : SessionState) : SessionState :=
  { s with start := true, done := false, results := [], matched := [] }

/-- The effectful inputs consumed by one invocation of
`record_and_process`: whether the model folder for the active language
exists (line 156), the texts returned by `AcceptWaveform`/`Result` during
the 10-second window in order (lines 174-175), the text returned by
`FinalResult` (line 178), and the random draw of the outbreak placeholder
(line 187). -/
structure RecInputs where
  modelOk : Bool
  partials : List String
  finalText : String
  draw : Fin 3
  deriving DecidableEq

/-- The end-of-stream handling (lines 178-180): the flush text is appended
to the accumulated results only when it is non-empty (`if final:`). -/
def appendFinal (results : List String) (final : String) : List String :=
  if final = "" then results else results ++ [final]

/-- The body of `record_and_process` (lines 141-188) as a state
transformer.  Returns the new session state and whether an error banner was
shown (line 157): on a missing model folder the function returns early with
the state untouched; otherwise each non-empty partial text is appended
(lines 174-177), the flush text is appended when non-empty (lines 178-180),
and matching, triage, outbreak and the `done` flag are updated
(lines 183-188). -/
def record_and_process (lang : Language) (inp : RecInputs) (s : SessionState) :
    SessionState × Bool :=
  if inp.modelOk then
    let results := appendFinal (s.results ++ inp.partials.filter (fun t => t != ""))
      inp.finalText
    let matched := matchSymptoms (SYMPTOMS lang) (joinSegments results)
    ({ s with
       results := results
       matched := matched
       triage := some (triage matched.length)
       outbreak := some (outbreak inp.draw)
       done := true }, false)
  else (s, true)

/-- The report payload assembled from a completed session
(lines 216-222), restricted to the core fields. -/
structure Report where
  language : Language
  symptoms : List String
  triageRisk : Option RiskLevel
  outbreakRisk : Option RiskLevel
  deriving DecidableEq

/-- Builds the report payload from the session state (lines 216-222). -/
def mkReport (lang : Language) (s : SessionState) : Report :=
  { language := lang
    symptoms := s.matched
    triageRisk := s.triage
    outbreakRisk := s.outbreak }

/-- One Streamlit script run over the core state: the start-button handler
fires when the button was clicked (lines 98-102), then recording runs under
the guard `start and not done` (lines 191-192).  The second component is the
report newly assembled by this run: one exactly when `record_and_process`
completed (set `done`), none otherwise. -/
def rerun (lang : Language) (clicked : Bool) (inp : RecInputs) (s : SessionState) :
    SessionState × Option Report :=
  let s1 := if clicked then btn_start s else s
  if s1.start && !s1.done then
    let out := record_and_process lang inp s1
    (out.1, if out.1.done then some (mkReport lang out.1) else none)
  else (s1, none)

/-- A session state with a recording cycle pending (`start` set, `done`
clear): the state left behind when a recording attempt failed on a missing
model folder (lines 156-158), or an in-window snapshot. -/
def recordingInProgress : SessionState :=
  { start := true
    done := false
    results := []
    matched := []
    triage := none
    outbreak := none }

/-- Specification-side notion of a case-insensitive substring occurrence:
the lowered needle appears contiguously inside the lowered haystack. -/
def OccursIn (needle hay : String) : Prop :=
  ∃ pre post, (pyLower hay).data = pre ++ (pyLower needle).data ++ post

/-- One raw audio chunk, abstracted to its byte contents. -/
abbrev AudioData := List Nat

/-- Possible outcomes of reading the frame queue once. -/
inductive GetOutcome where
  | returns (data : AudioData) (rest : List AudioData)
  | blocksIndefinitely
  deriving DecidableEq

/-- Model of the per-frame read `data = q.get()` (line 173): the call
passes no timeout argument, so on an empty queue it waits without bound
instead of returning or raising. -/
def queueGet : List AudioData → GetOutcome
  | [] => .blocksIndefinitely
  | d :: rest => .returns d rest

/-- A needle occurs at the start of `hay` iff `hay` extends it. -/
theorem leadsWith_iff (hay needle : List Char) :
    leadsWith hay needle = true ↔ ∃ post, hay = needle ++ post := by
  induction needle generalizing hay with
  | nil => simp [leadsWith]
  | cons n ns ih =>
    cases hay with
    | nil => simp [leadsWith]
    | cons h hs => simp [leadsWith, ih, List.cons_eq_cons, exists_and_left]

/-- Soundness and completeness of the left-to-right substring scan:
`containsSub` succeeds exactly on contiguous occurrences. -/
theorem containsSub_iff (needle hay : List Char) :
    containsSub needle hay = true ↔ ∃ pre post, hay = pre ++ needle ++ post := by
  induction hay with
  | nil =>
    simp only [containsSub, decide_eq_true_eq]
    constructor
    · rintro rfl
      exact ⟨[], [], rfl⟩
    · rintro ⟨pre, post, h⟩
      rcases List.append_eq_nil.mp h.symm with ⟨h1, h2⟩
      exact (List.append_eq_nil.mp h1).2
  | cons c rest ih =>
    simp only [containsSub, Bool.or_eq_true, leadsWith_iff, ih]
    constructor
    · rintro (⟨post, h⟩ | ⟨pre, post, h⟩)
      · exact ⟨[], post, by simpa using h⟩
      · exact ⟨c :: pre, post, by simp [h]⟩
    · rintro ⟨pre, post, h⟩
      cases pre with
      | nil => exact Or.inl ⟨post, by simpa using h⟩
      | cons p ps =>
        injection h with h1 h2
        exact Or.inr ⟨ps, post, h2⟩

/-- Extending the haystack on the right preserves containment. -/
theorem containsSub_append (needle hay tail : List Char)
    (h : containsSub needle hay = true) :
    containsSub needle (hay ++ tail) = true := by
  rcases (containsSub_iff needle hay).mp h with ⟨pre, post, rfl⟩
  exact (containsSub_iff needle _).mpr ⟨pre, post ++ tail, by simp⟩

/-- Joining an extended segment list only appends characters on the right. -/
theorem joinSegments_append (segs ext : List String) :
    ∃ tail, (joinSegments (segs ++ ext)).data = (joinSegments segs).data ++ tail := by
  induction segs with
  | nil => exact ⟨(joinSegments ext).data, by simp [joinSegments]⟩
  | cons s segs ih =>
    cases segs with
    | nil =>
      cases ext with
      | nil => exact ⟨[], by simp [joinSegments]⟩
      | cons e es =>
        refine ⟨(" " ++ joinSegments (e :: es)).data, ?_⟩
        show (joinSegments (s :: e :: es)).data = _
        simp [joinSegments, String.data_append]
    | cons x xs =>
      obtain ⟨tail, htail⟩ := ih
      refine ⟨tail, ?_⟩
      simp only [List.cons_append] at htail ⊢
      simp only [joinSegments, String.data_append, htail, List.append_assoc]

/-- Both configured vocabularies list each term exactly once. -/
theorem SYMPTOMS_nodup (lang : Language) : (SYMPTOMS lang).Nodup := by
  cases lang <;> decide

/-- C1: for every integer matchCount `k` with `0 ≤ k ≤ |vocabulary|`, the
triage classification is High iff `k ≥ 6`, Moderate iff `3 ≤ k < 6`, and
Low iff `k < 3`. -/
theorem C1_triage_thresholds (lang : Language) (k : Nat)
    (_hk : k ≤ (SYMPTOMS lang).length) :
    (triage k = RiskLevel.High ↔ 6 ≤ k) ∧
    (triage k = RiskLevel.Moderate ↔ 3 ≤ k ∧ k < 6) ∧
    (triage k = RiskLevel.Low ↔ k < 3) := by
  unfold triage
  split_ifs with h1 h2 <;> refine ⟨?_, ?_, ?_⟩ <;> simp <;> omega

/-- Witness for C1 at `k = 7` against the English vocabulary. -/
theorem C1_witness :
    (triage 7 = RiskLevel.High ↔ 6 ≤ 7) ∧
    (triage 7 = RiskLevel.Moderate ↔ 3 ≤ 7 ∧ 7 < 6) ∧
    (triage 7 = RiskLevel.Low ↔ 7 < 3) :=
  C1_triage_thresholds Language.English 7 (by decide)

/-- C3: a term present only in the French vocabulary never appears in a
MatchSet computed against the English vocabulary, even if it occurs as a
substring of the transcript, and symmetrically. -/
theorem C3_language_isolation (full t : String) :
    (t ∈ SYMPTOMS Language.French → t ∉ SYMPTOMS Language.English →
      t ∉ matchSymptoms (SYMPTOMS Language.English) full) ∧
    (t ∈ SYMPTOMS Language.English → t ∉ SYMPTOMS Language.French →
      t ∉ matchSymptoms (SYMPTOMS Language.French) full) := by
  constructor <;> intro _ hnot hmem <;> exact hnot (List.mem_of_mem_filter hmem)

/-- Witness for C3: the French-only term occurs verbatim in the transcript
yet is absent from the English MatchSet. -/
theorem C3_witness :
    "fièvre" ∉ matchSymptoms (SYMPTOMS Language.English) "j ai de la fièvre" :=
  (C3_language_isolation "j ai de la fièvre" "fièvre").1 (by decide) (by decide)

/-- C8: for English and the transcript
"i have a fever and fatigue and nausea", the matcher returns exactly
fever, fatigue, nausea in vocabulary order, so matchCount is 3 and the
triage risk is Moderate. -/
theorem C8_english_scenario :
    matchSymptoms (SYMPTOMS Language.English) "i have a fever and fatigue and nausea"
      = ["fever", "fatigue", "nausea"] ∧
    (matchSymptoms (SYMPTOMS Language.English)
      "i have a fever and fatigue and nausea").length = 3 ∧
    triage 3 = RiskLevel.Moderate ∧
    (record_and_process Language.English
        ⟨true, ["i have a fever and fatigue and nausea"], "", 0⟩
        initialState).1.triage = some RiskLevel.Moderate := by
  decide

/-- C9: the per-frame read of the frame queue inside the recording window
is issued with no timeout, so on an empty queue it blocks indefinitely
rather than completing within a bounded timeout surfaced as a typed
error. -/
theorem C9_queue_read_unbounded : queueGet [] = GetOutcome.blocksIndefinitely := rfl

/-- C2: the matcher returns exactly the vocabulary terms that occur,
case-insensitively, as substrings of the space-joined concatenation of all
segment texts in sequence order; the result lists its elements in
vocabulary order with each term appearing at most once. -/
theorem C2_matcher_exact (lang : Language) (segs : List String) :
    (∀ t, t ∈ matchSymptoms (SYMPTOMS lang) (joinSegments segs) ↔
        t ∈ SYMPTOMS lang ∧ OccursIn t (joinSegments segs)) ∧
    List.Sublist (matchSymptoms (SYMPTOMS lang) (joinSegments segs)) (SYMPTOMS lang) ∧
    (matchSymptoms (SYMPTOMS lang) (joinSegments segs)).Nodup := by
  refine ⟨?_, List.filter_sublist _,
    List.Nodup.sublist (List.filter_sublist _) (SYMPTOMS_nodup lang)⟩
  intro t
  simp only [matchSymptoms, List.mem_filter, strInStr, containsSub_iff, OccursIn]

/-- C4: the triage result is a function of the transcript and language
alone — two runs differing only in the outbreak random draw produce the same
triage — and a completed run whose MatchSet holds 7 distinct terms is
triaged High. -/
theorem C4_triage_independent (lang : Language) (modelOk : Bool)
    (partials : List String) (finalText : String) (d1 d2 : Fin 3)
    (s : SessionState) :
    (record_and_process lang ⟨modelOk, partials, finalText, d1⟩ s).1.triage
      = (record_and_process lang ⟨modelOk, partials, finalText, d2⟩ s).1.triage ∧
    (modelOk = true →
      (record_and_process lang ⟨modelOk, partials, finalText, d1⟩ s).1.matched.length = 7 →
      (record_and_process lang ⟨modelOk, partials, finalText, d1⟩ s).1.triage
        = some RiskLevel.High) := by
  cases modelOk with
  | false => exact ⟨rfl, fun h => nomatch h⟩
  | true =>
    refine ⟨rfl, fun _ h7 => ?_⟩
    simp only [record_and_process, if_true] at h7 ⊢
    rw [h7]
    decide

/-- Witness for C4: a transcript holding 7 distinct vocabulary terms is
triaged High under two different outbreak draws. -/
theorem C4_witness :
    (record_and_process Language.English
        ⟨true, ["fever chills headache vomiting fatigue nausea diarrhea"], "", 0⟩
        initialState).1.triage
      = (record_and_process Language.English
        ⟨true, ["fever chills headache vomiting fatigue nausea diarrhea"], "", 2⟩
        initialState).1.triage ∧
    (record_and_process Language.English
        ⟨true, ["fever chills headache vomiting fatigue nausea diarrhea"], "", 0⟩
        initialState).1.triage = some RiskLevel.High :=
  ⟨(C4_triage_independent Language.English true
      ["fever chills headache vomiting fatigue nausea diarrhea"] "" 0 2 initialState).1,
   (C4_triage_independent Language.English true
      ["fever chills headache vomiting fatigue nausea diarrhea"] "" 0 2 initialState).2
      rfl (by decide)⟩

/-- C5 counterexample: with one partial segment "hello" and an empty flush
text, no additional final segment is appended — the results stay
["hello"] instead of gaining an empty final segment. -/
theorem C5_counterexample :
    (record_and_process Language.English ⟨true, ["hello"], "", 0⟩
        initialState).1.results = ["hello"] ∧
    (record_and_process Language.English ⟨true, ["hello"], "", 0⟩
        initialState).1.results ≠ ["hello", ""] := by
  decide

/-- C5 (amended): on end-of-stream the flush text is always consulted, and
exactly one additional final segment is appended after all partial segments
precisely when the flush text is non-empty; an empty flush text appends no
segment. -/
theorem C5_final_segment (lang : Language) (inp : RecInputs) (s : SessionState)
    (hm : inp.modelOk = true) :
    (inp.finalText ≠ "" →
      (record_and_process lang inp s).1.results
        = (s.results ++ inp.partials.filter (fun t => t != "")) ++ [inp.finalText]) ∧
    (inp.finalText = "" →
      (record_and_process lang inp s).1.results
        = s.results ++ inp.partials.filter (fun t => t != "")) := by
  constructor <;> intro hf <;> simp [record_and_process, hm, appendFinal, hf]

/-- Witness for C5 (amended): a non-empty flush text is appended as the last
segment. -/
theorem C5_witness :
    (record_and_process Language.English ⟨true, ["hello"], "done", 0⟩
        initialState).1.results
      = (initialState.results ++ ["hello"].filter (fun t => t != "")) ++ ["done"] :=
  (C5_final_segment Language.English ⟨true, ["hello"], "done", 0⟩
      initialState rfl).1 (by decide)

/-- C6 counterexample: a start request processed while a recording cycle is
pending (`start` set, `done` clear) does not leave the machine in Recording
with no report — the run completes the cycle, flips `done`, and produces a
report. -/
theorem C6_counterexample :
    ((rerun Language.English true ⟨true, ["i have a fever"], "", 0⟩
        recordingInProgress).2).isSome = true ∧
    (rerun Language.English true ⟨true, ["i have a fever"], "", 0⟩
        recordingInProgress).1.done = true ∧
    recordingInProgress.done = false := by
  decide

/-- C6 (amended): each script run produces at most one Report: a processed
start request resets the accumulated results and begins a fresh cycle that
(when the model loads) completes with exactly one Report built from the new
recording only, and a run without a start request on a completed session
produces no Report and changes nothing. -/
theorem C6_single_report (lang : Language) (inp : RecInputs) (s : SessionState) :
    (inp.modelOk = true →
      ((rerun lang true inp s).2).isSome = true ∧
      (rerun lang true inp s).1.done = true ∧
      (rerun lang true inp s).1.results
        = appendFinal (inp.partials.filter (fun t => t != "")) inp.finalText) ∧
    (s.done = true → rerun lang false inp s = (s, none)) := by
  constructor
  · intro hm
    simp [rerun, btn_start, record_and_process, hm]
  · intro hd
    simp [rerun, hd]

/-- Witness for C6 (amended): a processed start request on a fresh session
yields one report with the reset results, and a rerun on a completed
session without a click reports nothing. -/
theorem C6_witness :
    (((rerun Language.English true ⟨true, ["i have a fever"], "x", 0⟩
        initialState).2).isSome = true ∧
      (rerun Language.English true ⟨true, ["i have a fever"], "x", 0⟩
        initialState).1.done = true ∧
      (rerun Language.English true ⟨true, ["i have a fever"], "x", 0⟩
        initialState).1.results
        = appendFinal (["i have a fever"].filter (fun t => t != "")) "x") ∧
    rerun Language.English false ⟨true, [], "", 0⟩ { initialState with done := true }
      = ({ initialState with done := true }, none) :=
  ⟨(C6_single_report Language.English ⟨true, ["i have a fever"], "x", 0⟩
      initialState).1 rfl,
   (C6_single_report Language.English ⟨true, [], "", 0⟩
      { initialState with done := true }).2 rfl⟩

/-- C7: if the speech model folder for the active language is missing, the
recording attempt fails before recording begins: the session state is
returned unchanged, an explicit error banner is surfaced, and no report is
produced by the run. -/
theorem C7_model_load_error (lang : Language) (clicked : Bool) (inp : RecInputs)
    (s : SessionState) (hm : inp.modelOk = false) :
    record_and_process lang inp s = (s, true) ∧
    (rerun lang clicked inp s).2 = none := by
  constructor
  · simp [record_and_process, hm]
  · cases clicked with
    | true => simp [rerun, btn_start, record_and_process, hm]
    | false =>
      by_cases hs : s.start <;> by_cases hd : s.done <;>
        simp [rerun, record_and_process, hm, hs, hd]

/-- Witness for C7: with the model folder missing, the state is untouched,
the error is surfaced, and the run reports nothing. -/
theorem C7_witness :
    record_and_process Language.English ⟨false, [], "", 0⟩ initialState
      = (initialState, true) ∧
    (rerun Language.English true ⟨false, [], "", 0⟩ initialState).2 = none :=
  C7_model_load_error Language.English true ⟨false, [], "", 0⟩ initialState rfl

/-- C10: matching is monotone in the transcript — when one segment list is
an initial portion of another, every term matched against the space-joined
first list is also matched against the space-joined second list. -/
theorem C10_match_monotone (vocab segs1 segs2 : List String) (t : String)
    (hpre : ∃ ext, segs2 = segs1 ++ ext)
    (hmem : t ∈ matchSymptoms vocab (joinSegments segs1)) :
    t ∈ matchSymptoms vocab (joinSegments segs2) := by
  obtain ⟨ext, rfl⟩ := hpre
  rw [matchSymptoms, List.mem_filter] at hmem ⊢
  refine ⟨hmem.1, ?_⟩
  have h : strInStr (pyLower t) (pyLower (joinSegments segs1)) = true := hmem.2
  obtain ⟨tail, htail⟩ := joinSegments_append segs1 ext
  show strInStr (pyLower t) (pyLower (joinSegments (segs1 ++ ext))) = true
  unfold strInStr
  have hd : (pyLower (joinSegments (segs1 ++ ext))).data
      = (pyLower (joinSegments segs1)).data ++ tail.map pyLowerChar := by
    show (joinSegments (segs1 ++ ext)).data.map pyLowerChar = _
    rw [htail, List.map_append]
    rfl
  rw [hd]
  exact containsSub_append _ _ _ h

/-- Witness for C10: "fever" matched on a one-segment transcript stays
matched after a second segment is appended. -/
theorem C10_witness :
    "fever" ∈ matchSymptoms (SYMPTOMS Language.English)
      (joinSegments ["i have fever", "and chills"]) :=
  C10_match_monotone (SYMPTOMS Language.English) ["i have fever"]
    ["i have fever", "and chills"] "fever" ⟨["and chills"], rfl⟩ (by decide)

end VoaProtect
